import Mathlib

/-!
Verification of the callback reliability subsystem of `litestar-sendparcel`:
the retry-record data model, the SQLAlchemy-backed retry store
(`contrib/sqlalchemy/retry_store.py`), the exponential-backoff scheduler and
the due-retry processor (`retry.py`), and the callback ingress controller
(`routes/callbacks.py`).

Timestamps are modelled as integers (seconds); the wall clock is passed
explicitly as a `now` parameter, so every function is a pure function of its
inputs plus the clock reading at the moment the original code would have
called `datetime.now`.  The retry store's database table is modelled as a
list of records; the external `sendparcel` flow collaborator and shipment
repository are abstract function parameters.
-/

namespace Sendparcel

/-- Status column of a retry record: `pending | succeeded | exhausted`. -/
inductive RetryStatus where
  | pending
  | succeeded
  | exhausted
  deriving DecidableEq, Repr

/-- One row of the `CallbackRetryModel` table.  `payload` is the callback
body, opaque to the subsystem, modelled as a string; `headers` is a
string-keyed string map modelled as an association list. -/
structure RetryRecord where
  id : String
  shipment_id : String
  provider_slug : String
  payload : String
  headers : List (String × String)
  attempts : Nat
  next_retry_at : Option Int
  last_error : Option String
  status : RetryStatus
  created_at : Int
  deriving DecidableEq, Repr

/-- The dict shape returned by `SQLAlchemyRetryStore.get_due_retries`:
only the keys `id, shipment_id, provider_slug, payload, headers, attempts`
are projected out of the row. -/
structure DueRetry where
  id : String
  shipment_id : String
  provider_slug : String
  payload : String
  headers : List (String × String)
  attempts : Nat
  deriving DecidableEq, Repr

/-- Embedding of `compute_next_retry_at` (`retry.py`):
`delay = backoff_seconds * 2 ** (attempt - 1)`, result `now + delay`. -/
def compute_next_retry_at (now : Int) (attempt : Nat) (backoff_seconds : Int) : Int :=
  now + backoff_seconds * 2 ^ (attempt - 1)

/-- The fresh row built by `store_failed_callback`: `attempts = 0`,
`status = "pending"`, `next_retry_at` computed for attempt 1. -/
def newRetryRecord (now backoff : Int) (newId shipment_id provider_slug payload : String)
    (headers : List (String × String)) : RetryRecord :=
  { id := newId
    shipment_id := shipment_id
    provider_slug := provider_slug
    payload := payload
    headers := headers
    attempts := 0
    next_retry_at := some (compute_next_retry_at now 1 backoff)
    last_error := none
    status := .pending
    created_at := now }

/-- Embedding of `SQLAlchemyRetryStore.store_failed_callback`: inserts a new
pending row and returns its id.  The id is supplied by the caller
(the database generates it in the source). -/
def store_failed_callback (now backoff : Int) (newId shipment_id provider_slug payload : String)
    (headers : List (String × String)) (store : List RetryRecord) :
    String × List RetryRecord :=
  (newId, store ++ [newRetryRecord now backoff newId shipment_id provider_slug payload headers])

/-- Session.get-then-mutate pattern shared by the three `mark_*` methods:
the row with the given primary key, if present, is replaced by `f` of it. -/
def updateRecord (retry_id : String) (f : RetryRecord → RetryRecord)
    (store : List RetryRecord) : List RetryRecord :=
  store.map fun r => if r.id == retry_id then f r else r

/-- Embedding of `SQLAlchemyRetryStore.mark_succeeded`: sets `status` to
`succeeded` on the row with this id, if any. -/
def mark_succeeded (retry_id : String) (store : List RetryRecord) : List RetryRecord :=
  updateRecord retry_id (fun r => { r with status := .succeeded }) store

/-- Embedding of `SQLAlchemyRetryStore.mark_failed`: increments `attempts`,
sets `last_error`, recomputes `next_retry_at` with attempt argument
`retry.attempts + 1` evaluated *after* the increment, and sets `status`
back to `pending`. -/
def mark_failed (now backoff : Int) (retry_id error : String)
    (store : List RetryRecord) : List RetryRecord :=
  updateRecord retry_id
    (fun r =>
      let a := r.attempts + 1
      { r with
        attempts := a
        last_error := some error
        next_retry_at := some (compute_next_retry_at now (a + 1) backoff)
        status := .pending })
    store

/-- Embedding of `SQLAlchemyRetryStore.mark_exhausted`: sets `status` to
`exhausted` on the row with this id, if any. -/
def mark_exhausted (retry_id : String) (store : List RetryRecord) : List RetryRecord :=
  updateRecord retry_id (fun r => { r with status := .exhausted }) store

/-- WHERE clause of `get_due_retries`: `status == "pending" AND
next_retry_at <= now` (a NULL `next_retry_at` never matches in SQL). -/
def isDue (now : Int) (r : RetryRecord) : Bool :=
  r.status == .pending &&
    match r.next_retry_at with
    | some t => decide (t ≤ now)
    | none => false

/-- ORDER BY key of `get_due_retries`: ascending `next_retry_at`
(due rows always carry a non-NULL timestamp, so the default is irrelevant). -/
def retryLE (a b : RetryRecord) : Bool :=
  decide (a.next_retry_at.getD 0 ≤ b.next_retry_at.getD 0)

/-- SELECT of `get_due_retries` before projection: filter pending-and-due,
order ascending by `next_retry_at`, LIMIT `limit`. -/
def due_query (now : Int) (limit : Nat) (store : List RetryRecord) : List RetryRecord :=
  (((store.filter (isDue now)).mergeSort retryLE).take limit)

/-- Dict projection applied to each selected row by `get_due_retries`. -/
def projectDue (r : RetryRecord) : DueRetry :=
  { id := r.id
    shipment_id := r.shipment_id
    provider_slug := r.provider_slug
    payload := r.payload
    headers := r.headers
    attempts := r.attempts }

/-- Embedding of `SQLAlchemyRetryStore.get_due_retries`. -/
def get_due_retries (now : Int) (limit : Nat) (store : List RetryRecord) : List DueRetry :=
  (due_query now limit store).map projectDue

/-- Lookup of the row with a given primary key (session.get). -/
def findRecord (retry_id : String) (store : List RetryRecord) : Option RetryRecord :=
  store.find? fun r => r.id == retry_id

/-- Snapshot of the external Shipment entity: the fields this subsystem
reads (`id`, `provider`, and the status string returned to the caller). -/
structure Shipment where
  id : String
  provider : String
  status : String
  deriving DecidableEq, Repr

/-- Failure classification of the external `ShipmentFlow.handle_callback`
collaborator: `InvalidCallbackError` (permanent), `CommunicationError`
(transient), or any other exception. -/
inductive FlowError where
  | invalidCallback (msg : String)
  | communicationError (msg : String)
  | other (msg : String)
  deriving DecidableEq, Repr

/-- String rendering `str(exc)` of a collaborator exception. -/
def FlowError.msg : FlowError → String
  | .invalidCallback m => m
  | .communicationError m => m
  | .other m => m

/-- Behaviour of the external verify/apply collaborator
`ShipmentFlow.handle_callback(shipment, payload, headers, raw_body=...)`:
given the loaded shipment, the payload, the headers and the optional raw
request body, it either succeeds with the updated shipment status string or
raises a classified error.  `raw_body` is `none` when the keyword argument
is omitted at the call site. -/
def Flow : Type :=
  Shipment → String → List (String × String) → Option String → Except FlowError String

/-- Behaviour of the external shipment repository's `get_by_id`:
`none` models the `KeyError` raised for a missing shipment. -/
def Repo : Type :=
  String → Option Shipment

/-- Embedding of `enqueue_callback_retry` (`retry.py`): a no-op when no
retry store is configured, otherwise `store_failed_callback`.  The store
state is `Option (List RetryRecord)`: `none` when the `retry_store`
dependency is `None`. -/
def enqueue_callback_retry (now backoff : Int) (newId provider_slug shipment_id payload : String)
    (headers : List (String × String)) (_reason : String)
    (store : Option (List RetryRecord)) : Option (List RetryRecord) :=
  match store with
  | none => none
  | some s =>
      some (store_failed_callback now backoff newId shipment_id provider_slug payload headers s).2

/-- Error surfaced to the HTTP caller by `CallbackController.handle_callback`. -/
inductive IngressError where
  | shipmentNotFound (id : String)
  | invalidCallback (msg : String)
  | communicationError (msg : String)
  | other (msg : String)
  deriving DecidableEq, Repr

/-- The `CallbackResponse` schema returned on success. -/
structure CallbackResponse where
  provider : String
  status : String
  shipment_status : String
  deriving DecidableEq, Repr

/-- Embedding of `CallbackController.handle_callback` (`routes/callbacks.py`):
resolve the shipment (`KeyError` becomes `ShipmentNotFoundError`), check the
provider slug, then delegate to the collaborator passing
`raw_body=raw_body`; `InvalidCallbackError` is re-raised with no retry
record, `CommunicationError` first enqueues a retry and is then re-raised,
any other exception propagates uncaught.  Returns the HTTP-level outcome
paired with the resulting retry-store state. -/
def handle_callback (flow : Flow) (repo : Repo) (now backoff : Int) (newId : String)
    (provider_slug shipment_id raw_body payload : String)
    (headers : List (String × String)) (retry_store : Option (List RetryRecord)) :
    Except IngressError CallbackResponse × Option (List RetryRecord) :=
  match repo shipment_id with
  | none => (.error (.shipmentNotFound shipment_id), retry_store)
  | some shipment =>
      if shipment.provider ≠ provider_slug then
        (.error (.invalidCallback "Provider slug mismatch"), retry_store)
      else
        match flow shipment payload headers (some raw_body) with
        | .ok updated =>
            (.ok { provider := provider_slug, status := "accepted", shipment_status := updated },
             retry_store)
        | .error (.invalidCallback m) => (.error (.invalidCallback m), retry_store)
        | .error (.communicationError m) =>
            (.error (.communicationError m),
             enqueue_callback_retry now backoff newId provider_slug shipment_id payload headers m
               retry_store)
        | .error (.other m) => (.error (.other m), retry_store)

/-- Loop body of `process_due_retries` (`retry.py`) for one due record:
a `KeyError` from the repository marks the record exhausted; otherwise the
flow is replayed with the stored payload and headers (and no `raw_body`
argument); on success `mark_succeeded`; on any exception, `mark_exhausted`
when `attempts >= retry_max_attempts` (the value read from the store), else
`mark_failed` with `str(exc)`.  Every branch increments `processed`. -/
def process_one (flow : Flow) (repo : Repo) (retry_max_attempts : Nat) (now backoff : Int)
    (retry : DueRetry) (acc : Nat × List RetryRecord) : Nat × List RetryRecord :=
  match repo retry.shipment_id with
  | none => (acc.1 + 1, mark_exhausted retry.id acc.2)
  | some shipment =>
      match flow shipment retry.payload retry.headers none with
      | .ok _ => (acc.1 + 1, mark_succeeded retry.id acc.2)
      | .error exc =>
          if retry_max_attempts ≤ retry.attempts then
            (acc.1 + 1, mark_exhausted retry.id acc.2)
          else
            (acc.1 + 1, mark_failed now backoff retry.id exc.msg acc.2)

/-- Embedding of `process_due_retries` (`retry.py`): fetch the due batch,
then process each record in order, threading the processed counter and the
store state.  Returns `(processed, final store)`. -/
def process_due_retries (flow : Flow) (repo : Repo) (retry_max_attempts : Nat)
    (now backoff : Int) (limit : Nat) (store : List RetryRecord) : Nat × List RetryRecord :=
  (get_due_retries now limit store).foldl
    (fun acc r => process_one flow repo retry_max_attempts now backoff r acc)
    (0, store)

/-! Helper lemmas shared by the claim theorems. -/

/-- Looking a row up after a keyed update returns the updated row, for any
update function that preserves the primary key. -/
theorem findRecord_updateRecord (retry_id : String) (f : RetryRecord → RetryRecord)
    (hf : ∀ r, (f r).id = r.id) (store : List RetryRecord) :
    findRecord retry_id (updateRecord retry_id f store)
      = (findRecord retry_id store).map f := by
  induction store with
  | nil => rfl
  | cons a l ih =>
    simp only [findRecord, updateRecord, List.map_cons] at *
    by_cases h : (a.id == retry_id) = true
    · rw [if_pos h,
        List.find?_cons_of_pos (p := fun r : RetryRecord => r.id == retry_id) _
          (by show ((f a).id == retry_id) = true; rw [hf a]; exact h),
        List.find?_cons_of_pos (p := fun r : RetryRecord => r.id == retry_id) _ h]
      rfl
    · rw [if_neg h,
        List.find?_cons_of_neg (p := fun r : RetryRecord => r.id == retry_id) _ h,
        List.find?_cons_of_neg (p := fun r : RetryRecord => r.id == retry_id) _ h]
      exact ih

/-- Specialisation of `findRecord_updateRecord` to `mark_succeeded`. -/
theorem findRecord_mark_succeeded (retry_id : String) (store : List RetryRecord) :
    findRecord retry_id (mark_succeeded retry_id store)
      = (findRecord retry_id store).map (fun r => { r with status := .succeeded }) :=
  findRecord_updateRecord retry_id (fun r => { r with status := .succeeded }) (fun _ => rfl) store

/-- Specialisation of `findRecord_updateRecord` to `mark_exhausted`. -/
theorem findRecord_mark_exhausted (retry_id : String) (store : List RetryRecord) :
    findRecord retry_id (mark_exhausted retry_id store)
      = (findRecord retry_id store).map (fun r => { r with status := .exhausted }) :=
  findRecord_updateRecord retry_id (fun r => { r with status := .exhausted }) (fun _ => rfl) store

/-- Specialisation of `findRecord_updateRecord` to `mark_failed`. -/
theorem findRecord_mark_failed (now backoff : Int) (retry_id error : String)
    (store : List RetryRecord) :
    findRecord retry_id (mark_failed now backoff retry_id error store)
      = (findRecord retry_id store).map
          (fun r =>
            { r with
              attempts := r.attempts + 1
              last_error := some error
              next_retry_at := some (compute_next_retry_at now (r.attempts + 2) backoff)
              status := .pending }) :=
  findRecord_updateRecord retry_id
    (fun r =>
      let a := r.attempts + 1
      { r with
        attempts := a
        last_error := some error
        next_retry_at := some (compute_next_retry_at now (a + 1) backoff)
        status := .pending })
    (fun _ => rfl) store

/-- Transitivity of the ORDER BY comparison. -/
theorem retryLE_trans (a b c : RetryRecord) (h1 : retryLE a b) (h2 : retryLE b c) :
    retryLE a c := by
  simp only [retryLE, decide_eq_true_eq] at *
  exact le_trans h1 h2

/-- Totality of the ORDER BY comparison. -/
theorem retryLE_total (a b : RetryRecord) : retryLE a b || retryLE b a := by
  simp only [retryLE, Bool.or_eq_true, decide_eq_true_eq]
  exact le_total _ _

/-- A row selected by the due query satisfies the WHERE clause. -/
theorem isDue_of_mem_due_query {now : Int} {limit : Nat} {store : List RetryRecord}
    {r : RetryRecord} (h : r ∈ due_query now limit store) : isDue now r = true := by
  have h1 : r ∈ (store.filter (isDue now)).mergeSort retryLE := List.mem_of_mem_take h
  rw [List.mem_mergeSort] at h1
  exact (List.mem_filter.mp h1).2

/-- Unfolding of the WHERE clause into its two conjuncts. -/
theorem isDue_iff {now : Int} {r : RetryRecord} :
    isDue now r = true ↔ r.status = .pending ∧ ∃ t, r.next_retry_at = some t ∧ t ≤ now := by
  unfold isDue
  cases hn : r.next_retry_at with
  | none => simp [hn]
  | some t => simp [hn, beq_iff_eq]

/-! Concrete fixtures used by counterexamples and witnesses. -/

/-- A retry row with the given `attempts`, `next_retry_at` and `status` and
fixed identifying fields, mirroring the fixtures of the repository's tests. -/
def sampleRecord (attempts : Nat) (t : Option Int) (st : RetryStatus) : RetryRecord :=
  { id := "r1"
    shipment_id := "s1"
    provider_slug := "dummy"
    payload := "x"
    headers := []
    attempts := attempts
    next_retry_at := t
    last_error := none
    status := st
    created_at := 0 }

/-- The shipment the sample repository resolves for id `s1`. -/
def sampleShipment : Shipment :=
  { id := "s1", provider := "dummy", status := "created" }

/-- A repository knowing exactly the shipment `s1`. -/
def sampleRepo : Repo := fun sid => if sid = "s1" then some sampleShipment else none

/-- A collaborator that always raises `CommunicationError`. -/
def failingFlow : Flow := fun _ _ _ _ => .error (.communicationError "net down")

/-- The due-retry dict corresponding to `sampleRecord`. -/
def sampleDue (attempts : Nat) : DueRetry :=
  { id := "r1"
    shipment_id := "s1"
    provider_slug := "dummy"
    payload := "x"
    headers := []
    attempts := attempts }

/-! Claim theorems. -/

/-- C5: for every attempt ≥ 1 and backoff_seconds > 0,
`compute_next_retry_at` equals the clock reading plus
`backoff_seconds * 2^(attempt-1)` seconds, and for a fixed clock reading and
backoff it is strictly increasing in the attempt number. -/
theorem C5_backoff_formula_strict_mono (now backoff : Int) (a1 a2 : Nat)
    (hb : 0 < backoff) (h1 : 1 ≤ a1) (h12 : a1 < a2) :
    compute_next_retry_at now a1 backoff = now + backoff * 2 ^ (a1 - 1) ∧
    compute_next_retry_at now a1 backoff < compute_next_retry_at now a2 backoff := by
  refine ⟨rfl, ?_⟩
  unfold compute_next_retry_at
  have hp : (2 : Int) ^ (a1 - 1) < 2 ^ (a2 - 1) :=
    pow_lt_pow_right₀ one_lt_two (by omega)
  exact add_lt_add_left (mul_lt_mul_of_pos_left hp hb) now

/-- Witness for C5 at now = 0, backoff = 10, attempts 1 < 2. -/
theorem C5_backoff_formula_strict_mono_witness :
    compute_next_retry_at 0 1 10 = 0 + 10 * 2 ^ (1 - 1) ∧
    compute_next_retry_at 0 1 10 < compute_next_retry_at 0 2 10 :=
  C5_backoff_formula_strict_mono 0 10 1 2 (by decide) (by decide) (by decide)

/-- C1 counterexample: on a pending record with `attempts = 0`,
`mark_failed` stores `next_retry_at` computed with attempt argument 2
(`new attempts + 1`), which differs from the value computed with the
post-increment attempts value 1 that the claim prescribes. -/
theorem C1_counterexample :
    (findRecord "r1" (mark_failed 0 10 "r1" "boom" [sampleRecord 0 (some 0) .pending])).map
        (fun r => (r.attempts, r.next_retry_at))
      = some (1, some (compute_next_retry_at 0 2 10)) ∧
    compute_next_retry_at 0 2 10 ≠ compute_next_retry_at 0 1 10 := by
  exact ⟨by decide, by decide⟩

/-- C1 (amended): for every existing record, `mark_failed` increments
`attempts` by one, sets `last_error`, leaves the status `pending`, and
recomputes `next_retry_at` with attempt argument equal to the new
(post-increment) attempts value plus one, i.e. `old attempts + 2`. -/
theorem C1_mark_failed_amended (now backoff : Int) (retry_id error : String)
    (store : List RetryRecord) (r : RetryRecord)
    (h : findRecord retry_id store = some r) :
    findRecord retry_id (mark_failed now backoff retry_id error store)
      = some { r with
               attempts := r.attempts + 1
               last_error := some error
               next_retry_at := some (compute_next_retry_at now (r.attempts + 2) backoff)
               status := .pending } := by
  rw [findRecord_mark_failed, h]
  rfl

/-- Witness for C1 (amended) on a singleton store. -/
theorem C1_mark_failed_amended_witness :
    findRecord "r1" (mark_failed 0 10 "r1" "boom" [sampleRecord 0 (some 0) .pending])
      = some { sampleRecord 0 (some 0) .pending with
               attempts := 1
               last_error := some "boom"
               next_retry_at := some (compute_next_retry_at 0 2 10)
               status := .pending } :=
  C1_mark_failed_amended 0 10 "r1" "boom" [sampleRecord 0 (some 0) .pending]
    (sampleRecord 0 (some 0) .pending) (by decide)

/-- C4 counterexample: `mark_failed` on an `exhausted` record (attempts 5)
changes its fields — it becomes `pending` with `attempts = 6` — so the
terminal statuses are not immutable under the store's transition methods. -/
theorem C4_counterexample :
    (findRecord "r1" (mark_failed 0 10 "r1" "late" [sampleRecord 5 none .exhausted])).map
        (fun r => (r.status, r.attempts))
      = some (RetryStatus.pending, 6) ∧
    (some ((RetryStatus.pending : RetryStatus), (6 : Nat))
        ≠ some (RetryStatus.exhausted, (5 : Nat))) := by
  exact ⟨by decide, by decide⟩

/-- C4 (amended): `mark_succeeded` on an already-succeeded record and
`mark_exhausted` on an already-exhausted record leave the record unchanged
(the idempotent no-ops the spec asks for), but the store does not enforce
terminality: `mark_succeeded` overwrites any status — exhausted included —
with `succeeded`, and `mark_failed` on a record of any status — terminal
included — increments `attempts` and returns it to `pending`. -/
theorem C4_terminal_amended (now backoff : Int) (retry_id error : String)
    (store : List RetryRecord) (r : RetryRecord)
    (h : findRecord retry_id store = some r) :
    (r.status = .succeeded → findRecord retry_id (mark_succeeded retry_id store) = some r) ∧
    (r.status = .exhausted → findRecord retry_id (mark_exhausted retry_id store) = some r) ∧
    findRecord retry_id (mark_succeeded retry_id store)
      = some { r with status := .succeeded } ∧
    findRecord retry_id (mark_failed now backoff retry_id error store)
      = some { r with
               attempts := r.attempts + 1
               last_error := some error
               next_retry_at := some (compute_next_retry_at now (r.attempts + 2) backoff)
               status := .pending } := by
  refine ⟨?_, ?_, ?_, ?_⟩
  · intro hs
    rw [findRecord_mark_succeeded, h]
    cases r with
    | mk i sid ps pl hd att nra le st ca =>
      cases hs
      rfl
  · intro hs
    rw [findRecord_mark_exhausted, h]
    cases r with
    | mk i sid ps pl hd att nra le st ca =>
      cases hs
      rfl
  · rw [findRecord_mark_succeeded, h]
    rfl
  · rw [findRecord_mark_failed, h]
    rfl

/-- Witness for C4 (amended) on a singleton store holding an exhausted
record. -/
theorem C4_terminal_amended_witness :
    ((sampleRecord 5 none .exhausted).status = .succeeded →
        findRecord "r1" (mark_succeeded "r1" [sampleRecord 5 none .exhausted])
          = some (sampleRecord 5 none .exhausted)) ∧
    ((sampleRecord 5 none .exhausted).status = .exhausted →
        findRecord "r1" (mark_exhausted "r1" [sampleRecord 5 none .exhausted])
          = some (sampleRecord 5 none .exhausted)) ∧
    findRecord "r1" (mark_succeeded "r1" [sampleRecord 5 none .exhausted])
      = some { sampleRecord 5 none .exhausted with status := .succeeded } ∧
    findRecord "r1" (mark_failed 0 10 "r1" "late" [sampleRecord 5 none .exhausted])
      = some { sampleRecord 5 none .exhausted with
               attempts := 6
               last_error := some "late"
               next_retry_at := some (compute_next_retry_at 0 7 10)
               status := .pending } :=
  C4_terminal_amended 0 10 "r1" "late" [sampleRecord 5 none .exhausted]
    (sampleRecord 5 none .exhausted) (by decide)

/-- C2: when the replay of a due record raises, the processor marks the
record exhausted exactly when the attempt count read from the store (the
pre-increment value) has reached `retry_max_attempts`, and otherwise marks
it failed with the error; either way the processed counter increments. -/
theorem C2_failure_branch (flow : Flow) (repo : Repo) (retry_max_attempts : Nat)
    (now backoff : Int) (retry : DueRetry) (processed : Nat) (store : List RetryRecord)
    (shipment : Shipment) (exc : FlowError)
    (hrepo : repo retry.shipment_id = some shipment)
    (hflow : flow shipment retry.payload retry.headers none = .error exc) :
    (retry_max_attempts ≤ retry.attempts →
        process_one flow repo retry_max_attempts now backoff retry (processed, store)
          = (processed + 1, mark_exhausted retry.id store)) ∧
    (retry.attempts < retry_max_attempts →
        process_one flow repo retry_max_attempts now backoff retry (processed, store)
          = (processed + 1, mark_failed now backoff retry.id exc.msg store)) := by
  constructor
  · intro hge
    simp only [process_one, hrepo, hflow]
    rw [if_pos hge]
  · intro hlt
    simp only [process_one, hrepo, hflow]
    rw [if_neg (Nat.not_le.mpr hlt)]

/-- Witness for C2: a record with one prior failure and
`retry_max_attempts = 3` is rescheduled via `mark_failed`. -/
theorem C2_failure_branch_witness :
    ((3 : Nat) ≤ (sampleDue 1).attempts →
        process_one failingFlow sampleRepo 3 0 10 (sampleDue 1)
            (0, [sampleRecord 1 (some 0) .pending])
          = (0 + 1, mark_exhausted (sampleDue 1).id [sampleRecord 1 (some 0) .pending])) ∧
    ((sampleDue 1).attempts < 3 →
        process_one failingFlow sampleRepo 3 0 10 (sampleDue 1)
            (0, [sampleRecord 1 (some 0) .pending])
          = (0 + 1,
             mark_failed 0 10 (sampleDue 1).id (FlowError.communicationError "net down").msg
               [sampleRecord 1 (some 0) .pending])) :=
  C2_failure_branch failingFlow sampleRepo 3 0 10 (sampleDue 1) 0
    [sampleRecord 1 (some 0) .pending] sampleShipment (.communicationError "net down")
    (by decide) rfl

/-- C8: a due record whose shipment no longer resolves is marked exhausted
without replaying, is counted as processed, and the batch fold carries on
with the remaining records from the updated accumulator. -/
theorem C8_missing_shipment (flow : Flow) (repo : Repo) (retry_max_attempts : Nat)
    (now backoff : Int) (retry : DueRetry) (processed : Nat) (store : List RetryRecord)
    (r : RetryRecord)
    (hrepo : repo retry.shipment_id = none)
    (hfind : findRecord retry.id store = some r) :
    process_one flow repo retry_max_attempts now backoff retry (processed, store)
      = (processed + 1, mark_exhausted retry.id store) ∧
    findRecord retry.id
        (process_one flow repo retry_max_attempts now backoff retry (processed, store)).2
      = some { r with status := .exhausted } ∧
    (∀ rest : List DueRetry, ∀ acc : Nat × List RetryRecord,
        (retry :: rest).foldl
            (fun a x => process_one flow repo retry_max_attempts now backoff x a) acc
          = rest.foldl (fun a x => process_one flow repo retry_max_attempts now backoff x a)
              (process_one flow repo retry_max_attempts now backoff retry acc)) := by
  have hstep : process_one flow repo retry_max_attempts now backoff retry (processed, store)
      = (processed + 1, mark_exhausted retry.id store) := by
    simp only [process_one, hrepo]
  refine ⟨hstep, ?_, ?_⟩
  · rw [hstep, findRecord_mark_exhausted, hfind]
    rfl
  · intro rest acc
    rfl

/-- Witness for C8: the sample repository does not know shipment `s2`. -/
theorem C8_missing_shipment_witness :
    process_one failingFlow sampleRepo 3 0 10 { sampleDue 1 with shipment_id := "s2" }
        (0, [sampleRecord 1 (some 0) .pending])
      = (0 + 1, mark_exhausted "r1" [sampleRecord 1 (some 0) .pending]) ∧
    findRecord "r1"
        (process_one failingFlow sampleRepo 3 0 10 { sampleDue 1 with shipment_id := "s2" }
          (0, [sampleRecord 1 (some 0) .pending])).2
      = some { sampleRecord 1 (some 0) .pending with status := .exhausted } ∧
    (∀ rest : List DueRetry, ∀ acc : Nat × List RetryRecord,
        ({ sampleDue 1 with shipment_id := "s2" } :: rest).foldl
            (fun a x => process_one failingFlow sampleRepo 3 0 10 x a) acc
          = rest.foldl (fun a x => process_one failingFlow sampleRepo 3 0 10 x a)
              (process_one failingFlow sampleRepo 3 0 10
                { sampleDue 1 with shipment_id := "s2" } acc)) :=
  C8_missing_shipment failingFlow sampleRepo 3 0 10 { sampleDue 1 with shipment_id := "s2" }
    0 [sampleRecord 1 (some 0) .pending] (sampleRecord 1 (some 0) .pending)
    (by decide) (by decide)

/-- C6: when the collaborator raises the permanent `InvalidCallbackError`,
ingress re-raises it and the retry store is untouched; when it raises the
transient `CommunicationError`, exactly one new record — with `attempts = 0`
and `status = pending` — is appended via `store_failed_callback` before the
error is re-raised. -/
theorem C6_ingress_classification (flow : Flow) (repo : Repo) (now backoff : Int)
    (newId provider_slug shipment_id raw_body payload : String)
    (headers : List (String × String)) (s : List RetryRecord)
    (shipment : Shipment) (m : String)
    (hrepo : repo shipment_id = some shipment)
    (hprov : shipment.provider = provider_slug) :
    (flow shipment payload headers (some raw_body) = .error (.invalidCallback m) →
        handle_callback flow repo now backoff newId provider_slug shipment_id raw_body payload
            headers (some s)
          = (.error (.invalidCallback m), some s)) ∧
    (flow shipment payload headers (some raw_body) = .error (.communicationError m) →
        handle_callback flow repo now backoff newId provider_slug shipment_id raw_body payload
            headers (some s)
          = (.error (.communicationError m),
             some (s ++
               [newRetryRecord now backoff newId shipment_id provider_slug payload headers])) ∧
        (newRetryRecord now backoff newId shipment_id provider_slug payload headers).attempts
          = 0 ∧
        (newRetryRecord now backoff newId shipment_id provider_slug payload headers).status
          = .pending) := by
  constructor
  · intro hflow
    simp [handle_callback, hrepo, hprov, hflow]
  · intro hflow
    refine ⟨?_, rfl, rfl⟩
    simp [handle_callback, hrepo, hprov, hflow, enqueue_callback_retry, store_failed_callback]

/-- Witness for C6 with the always-transiently-failing collaborator. -/
theorem C6_ingress_classification_witness :
    (failingFlow sampleShipment "x" [] (some "body") = .error (.invalidCallback "net down") →
        handle_callback failingFlow sampleRepo 0 10 "r1" "dummy" "s1" "body" "x" [] (some [])
          = (.error (.invalidCallback "net down"), some [])) ∧
    (failingFlow sampleShipment "x" [] (some "body")
          = .error (.communicationError "net down") →
        handle_callback failingFlow sampleRepo 0 10 "r1" "dummy" "s1" "body" "x" [] (some [])
          = (.error (.communicationError "net down"),
             some ([] ++ [newRetryRecord 0 10 "r1" "s1" "dummy" "x" []])) ∧
        (newRetryRecord 0 10 "r1" "s1" "dummy" "x" []).attempts = 0 ∧
        (newRetryRecord 0 10 "r1" "s1" "dummy" "x" []).status = .pending) :=
  C6_ingress_classification failingFlow sampleRepo 0 10 "r1" "dummy" "s1" "body" "x" [] []
    sampleShipment "net down" (by decide) (by decide)

/-- C10: with no retry store configured, `enqueue_callback_retry` is a
no-op, so a transient failure in ingress persists nothing while the error
surfaced to the caller is exactly the one of the configured case. -/
theorem C10_no_store (flow : Flow) (repo : Repo) (now backoff : Int)
    (newId provider_slug shipment_id raw_body payload reason : String)
    (headers : List (String × String)) (s : List RetryRecord)
    (shipment : Shipment) (m : String)
    (hrepo : repo shipment_id = some shipment)
    (hprov : shipment.provider = provider_slug)
    (hflow : flow shipment payload headers (some raw_body)
        = .error (.communicationError m)) :
    enqueue_callback_retry now backoff newId provider_slug shipment_id payload headers reason
        none
      = none ∧
    (handle_callback flow repo now backoff newId provider_slug shipment_id raw_body payload
        headers none).2 = none ∧
    (handle_callback flow repo now backoff newId provider_slug shipment_id raw_body payload
        headers none).1
      = (handle_callback flow repo now backoff newId provider_slug shipment_id raw_body payload
          headers (some s)).1 := by
  refine ⟨rfl, ?_, ?_⟩
  · simp [handle_callback, hrepo, hprov, hflow, enqueue_callback_retry]
  · simp [handle_callback, hrepo, hprov, hflow]

/-- Witness for C10 at the transiently-failing collaborator. -/
theorem C10_no_store_witness :
    enqueue_callback_retry 0 10 "r1" "dummy" "s1" "x" [] "net down" none = none ∧
    (handle_callback failingFlow sampleRepo 0 10 "r1" "dummy" "s1" "body" "x" [] none).2
      = none ∧
    (handle_callback failingFlow sampleRepo 0 10 "r1" "dummy" "s1" "body" "x" [] none).1
      = (handle_callback failingFlow sampleRepo 0 10 "r1" "dummy" "s1" "body" "x" []
          (some [])).1 :=
  C10_no_store failingFlow sampleRepo 0 10 "r1" "dummy" "s1" "body" "x" "net down" [] []
    sampleShipment "net down" (by decide) (by decide) rfl

/-- C7: the due query returns at most `limit` rows, every selected row is
pending with an elapsed `next_retry_at`, the selection is ordered ascending
by `next_retry_at`, and it is empty when no stored row is due. -/
theorem C7_get_due_retries (now : Int) (limit : Nat) (store : List RetryRecord) :
    (get_due_retries now limit store).length ≤ limit ∧
    (∀ r ∈ due_query now limit store,
        r.status = .pending ∧ ∃ t, r.next_retry_at = some t ∧ t ≤ now) ∧
    (due_query now limit store).Pairwise
      (fun a b => a.next_retry_at.getD 0 ≤ b.next_retry_at.getD 0) ∧
    ((∀ r ∈ store, isDue now r = false) → get_due_retries now limit store = []) := by
  refine ⟨?_, ?_, ?_, ?_⟩
  · rw [get_due_retries, List.length_map, due_query, List.length_take]
    exact min_le_left _ _
  · intro r hr
    exact isDue_iff.mp (isDue_of_mem_due_query hr)
  · have hs : ((store.filter (isDue now)).mergeSort retryLE).Pairwise
        (fun a b => retryLE a b = true) := by
      simpa using List.sorted_mergeSort retryLE_trans retryLE_total (store.filter (isDue now))
    have ht : (due_query now limit store).Pairwise (fun a b => retryLE a b = true) :=
      List.Pairwise.sublist (List.take_sublist _ _) hs
    exact ht.imp fun h => by simpa [retryLE] using h
  · intro hnone
    have hfil : store.filter (isDue now) = [] := by
      rw [List.filter_eq_nil_iff]
      intro a ha
      simp [hnone a ha]
    rw [get_due_retries, due_query, hfil]
    simp

/-- Witness for C7 on a singleton store holding one due pending record. -/
theorem C7_get_due_retries_witness :
    (get_due_retries 5 10 [sampleRecord 1 (some 0) .pending]).length ≤ 10 ∧
    (∀ r ∈ due_query 5 10 [sampleRecord 1 (some 0) .pending],
        r.status = .pending ∧ ∃ t, r.next_retry_at = some t ∧ t ≤ 5) ∧
    (due_query 5 10 [sampleRecord 1 (some 0) .pending]).Pairwise
      (fun a b => a.next_retry_at.getD 0 ≤ b.next_retry_at.getD 0) ∧
    ((∀ r ∈ [sampleRecord 1 (some 0) .pending], isDue 5 r = false) →
        get_due_retries 5 10 [sampleRecord 1 (some 0) .pending] = []) :=
  C7_get_due_retries 5 10 [sampleRecord 1 (some 0) .pending]

/-- One invocation of the due-retry processor over the failing collaborator
with `retry_max_attempts = 3`, `backoff_seconds = 10` and batch limit 10,
returning the resulting store. -/
def c3pass (now : Int) (store : List RetryRecord) : List RetryRecord :=
  (process_due_retries failingFlow sampleRepo 3 now 10 10 store).2

/-- Store after the first failed replay of a fresh record. -/
def c3store1 : List RetryRecord := c3pass 1000 [sampleRecord 0 (some 0) .pending]

/-- Store after the second failed replay. -/
def c3store2 : List RetryRecord := c3pass 2000 c3store1

/-- Store after the third failed replay. -/
def c3store3 : List RetryRecord := c3pass 3000 c3store2

/-- Store after the fourth failed replay. -/
def c3store4 : List RetryRecord := c3pass 4000 c3store3

unseal List.merge List.mergeSort in
/-- C3 counterexample: with `retry_max_attempts = 3`, a record created with
`attempts = 0` that fails on three consecutive processed replays is still
`pending` with `attempts = 3` after the third failure — not `exhausted` as
the claim states (the exhaustion check compares the pre-increment count, so
a record with `attempts = retry_max_attempts - 1` is rescheduled, not
dead-lettered). -/
theorem C3_counterexample :
    (findRecord "r1" c3store1).map (fun r => (r.status, r.attempts))
      = some (RetryStatus.pending, 1) ∧
    (findRecord "r1" c3store2).map (fun r => (r.status, r.attempts))
      = some (RetryStatus.pending, 2) ∧
    (findRecord "r1" c3store3).map (fun r => (r.status, r.attempts))
      = some (RetryStatus.pending, 3) ∧
    (some ((RetryStatus.pending : RetryStatus), (3 : Nat))
        ≠ some (RetryStatus.exhausted, (3 : Nat))) := by
  exact ⟨by decide, by decide, by decide, by decide⟩

unseal List.merge List.mergeSort in
/-- C3 (amended): with `retry_max_attempts = 3`, consecutive failed replays
drive the record `pending(1) → pending(2) → pending(3)`, and the fourth
failed replay reaches `exhausted` with `attempts = 3`; in general a record
whose `attempts` equals `retry_max_attempts` transitions to `exhausted`
when its replay fails, while one with `attempts = retry_max_attempts - 1`
is rescheduled to `pending`. -/
theorem C3_amended (flow : Flow) (repo : Repo) (retry_max_attempts : Nat)
    (now backoff : Int) (retry : DueRetry) (processed : Nat) (store : List RetryRecord)
    (shipment : Shipment) (exc : FlowError)
    (hrepo : repo retry.shipment_id = some shipment)
    (hflow : flow shipment retry.payload retry.headers none = .error exc) :
    ((findRecord "r1" c3store1).map (fun r => (r.status, r.attempts))
        = some (RetryStatus.pending, 1) ∧
     (findRecord "r1" c3store2).map (fun r => (r.status, r.attempts))
        = some (RetryStatus.pending, 2) ∧
     (findRecord "r1" c3store3).map (fun r => (r.status, r.attempts))
        = some (RetryStatus.pending, 3) ∧
     (findRecord "r1" c3store4).map (fun r => (r.status, r.attempts))
        = some (RetryStatus.exhausted, 3)) ∧
    (retry.attempts = retry_max_attempts →
        process_one flow repo retry_max_attempts now backoff retry (processed, store)
          = (processed + 1, mark_exhausted retry.id store)) ∧
    (retry.attempts + 1 = retry_max_attempts →
        process_one flow repo retry_max_attempts now backoff retry (processed, store)
          = (processed + 1, mark_failed now backoff retry.id exc.msg store)) := by
  refine ⟨⟨by decide, by decide, by decide, by decide⟩, ?_, ?_⟩
  · intro he
    simp only [process_one, hrepo, hflow]
    rw [if_pos (by omega)]
  · intro he
    simp only [process_one, hrepo, hflow]
    rw [if_neg (by omega)]

/-- Witness for C3 (amended): a record at the attempt ceiling is
dead-lettered by the next failure. -/
theorem C3_amended_witness :
    ((findRecord "r1" c3store1).map (fun r => (r.status, r.attempts))
        = some (RetryStatus.pending, 1) ∧
     (findRecord "r1" c3store2).map (fun r => (r.status, r.attempts))
        = some (RetryStatus.pending, 2) ∧
     (findRecord "r1" c3store3).map (fun r => (r.status, r.attempts))
        = some (RetryStatus.pending, 3) ∧
     (findRecord "r1" c3store4).map (fun r => (r.status, r.attempts))
        = some (RetryStatus.exhausted, 3)) ∧
    ((sampleDue 3).attempts = 3 →
        process_one failingFlow sampleRepo 3 0 10 (sampleDue 3)
            (0, [sampleRecord 3 (some 0) .pending])
          = (0 + 1, mark_exhausted (sampleDue 3).id [sampleRecord 3 (some 0) .pending])) ∧
    ((sampleDue 3).attempts + 1 = 3 →
        process_one failingFlow sampleRepo 3 0 10 (sampleDue 3)
            (0, [sampleRecord 3 (some 0) .pending])
          = (0 + 1,
             mark_failed 0 10 (sampleDue 3).id (FlowError.communicationError "net down").msg
               [sampleRecord 3 (some 0) .pending])) :=
  C3_amended failingFlow sampleRepo 3 0 10 (sampleDue 3) 0 [sampleRecord 3 (some 0) .pending]
    sampleShipment (.communicationError "net down") (by decide) rfl

/-- A collaborator whose verification depends on the raw request body:
it succeeds when a raw body is supplied and raises `CommunicationError`
when invoked without one. -/
def rawSensitiveFlow : Flow := fun _ _ _ rb =>
  match rb with
  | some _ => .ok "delivered"
  | none => .error (.communicationError "raw body required")

/-- C9 counterexample: ingress passes `raw_body=raw_body` to the
collaborator but the replay in the processor omits it, so for a collaborator
whose behaviour depends on the raw body the original ingress call succeeds
while the replay of the very same stored payload and headers fails and the
record stays pending — the two are not observationally equivalent. -/
theorem C9_counterexample :
    (handle_callback rawSensitiveFlow sampleRepo 0 10 "r1" "dummy" "s1" "body" "x" []
        (some [])).1
      = .ok { provider := "dummy", status := "accepted", shipment_status := "delivered" } ∧
    (findRecord "r1"
        (process_one rawSensitiveFlow sampleRepo 3 0 10 (sampleDue 0)
          (0, [sampleRecord 0 (some 0) .pending])).2).map (fun r => r.status)
      = some RetryStatus.pending ∧
    some RetryStatus.pending ≠ some RetryStatus.succeeded := by
  exact ⟨rfl, by decide, by decide⟩

/-- C9 (amended): the processor replays through the same collaborator entry
point with the record's stored payload and headers, but without the raw
request body that ingress passes; for every collaborator whose behaviour
does not depend on `raw_body`, the replay takes exactly the branch dictated
by the collaborator's response to the ingress-style invocation, so replay
and ingress are observationally equivalent for such collaborators. -/
theorem C9_amended (flow : Flow) (repo : Repo) (retry_max_attempts : Nat)
    (now backoff : Int) (retry : DueRetry) (processed : Nat) (store : List RetryRecord)
    (shipment : Shipment)
    (hrepo : repo retry.shipment_id = some shipment)
    (hraw : ∀ sh p hd rb, flow sh p hd rb = flow sh p hd none) :
    (∀ raw_body u, flow shipment retry.payload retry.headers (some raw_body) = .ok u →
        process_one flow repo retry_max_attempts now backoff retry (processed, store)
          = (processed + 1, mark_succeeded retry.id store)) ∧
    (∀ raw_body exc,
        flow shipment retry.payload retry.headers (some raw_body) = .error exc →
        process_one flow repo retry_max_attempts now backoff retry (processed, store)
          = (processed + 1,
             if retry_max_attempts ≤ retry.attempts then mark_exhausted retry.id store
             else mark_failed now backoff retry.id exc.msg store)) := by
  constructor
  · intro raw_body u hok
    have hnone : flow shipment retry.payload retry.headers none = .ok u := by
      rw [← hraw shipment retry.payload retry.headers (some raw_body)]
      exact hok
    simp only [process_one, hrepo, hnone]
  · intro raw_body exc herr
    have hnone : flow shipment retry.payload retry.headers none = .error exc := by
      rw [← hraw shipment retry.payload retry.headers (some raw_body)]
      exact herr
    simp only [process_one, hrepo, hnone]
    by_cases h : retry_max_attempts ≤ retry.attempts
    · rw [if_pos h, if_pos h]
    · rw [if_neg h, if_neg h]

/-- Witness for C9 (amended) at the raw-body-insensitive failing
collaborator. -/
theorem C9_amended_witness :
    (∀ raw_body u,
        failingFlow sampleShipment (sampleDue 1).payload (sampleDue 1).headers (some raw_body)
            = .ok u →
        process_one failingFlow sampleRepo 3 0 10 (sampleDue 1)
            (0, [sampleRecord 1 (some 0) .pending])
          = (0 + 1, mark_succeeded (sampleDue 1).id [sampleRecord 1 (some 0) .pending])) ∧
    (∀ raw_body exc,
        failingFlow sampleShipment (sampleDue 1).payload (sampleDue 1).headers (some raw_body)
            = .error exc →
        process_one failingFlow sampleRepo 3 0 10 (sampleDue 1)
            (0, [sampleRecord 1 (some 0) .pending])
          = (0 + 1,
             if 3 ≤ (sampleDue 1).attempts then
               mark_exhausted (sampleDue 1).id [sampleRecord 1 (some 0) .pending]
             else
               mark_failed 0 10 (sampleDue 1).id exc.msg
                 [sampleRecord 1 (some 0) .pending])) :=
  C9_amended failingFlow sampleRepo 3 0 10 (sampleDue 1) 0
    [sampleRecord 1 (some 0) .pending] sampleShipment (by decide) (fun _ _ _ _ => rfl)

end Sendparcel
